import Mathlib

/-!
Shallow embedding of `src/cephfs/cephfs-provisioner.go` (the CephFS dynamic
provisioner): parameter parsing, admin-secret resolution, the Provision and
Delete lifecycle operations, and the ownership-annotation checks.

External collaborators (the Kubernetes client, the spawned agent subprocess)
are modelled as explicit inputs: the client is an `Option Client` record of
lookup functions (`none` models a nil client pointer), the agent subprocess
result is passed in as a value, and spawned commands and created secrets are
returned as explicit effects.  Go runtime panics (slice out of bounds, nil
pointer dereference) are modelled by a distinguished `crash` outcome.
-/

deriving instance DecidableEq for Except

namespace CephFS

/-- Go `strings.Split(s, sep)` for a one-character separator, on char lists:
always returns at least one (possibly empty) segment. -/
def goSplitChar (sep : Char) : List Char → List (List Char)
  | [] => [[]]
  | a :: rest =>
    let r := goSplitChar sep rest
    if a = sep then [] :: r
    else
      match r with
      | [] => [[a]]
      | g :: gs => (a :: g) :: gs

/-- Go `strings.Split(s, string sep)`. -/
def goSplit (s : String) (sep : Char) : List String :=
  (goSplitChar sep s.toList).map String.mk

/-- Go `strings.Join(l, sep)`. -/
def goJoin (l : List String) (sep : String) : String :=
  match l with
  | [] => ""
  | [a] => a
  | a :: b :: rest => a ++ sep ++ goJoin (b :: rest) sep

/-- Go `strings.ToLower` (ASCII suffices for the recognized keys). -/
def goToLower (s : String) : String := String.mk (s.toList.map Char.toLower)

/-- Index of the first occurrence of `c`, `-1` if absent
(Go `strings.Index(s, string c)`), as a recursion on the char list. -/
def goIndexAux (c : Char) : List Char → Int
  | [] => -1
  | a :: rest =>
    if a = c then 0
    else
      let r := goIndexAux c rest
      if r < 0 then -1 else r + 1

/-- Go `strings.Index(s, string c)`. -/
def goIndex (s : String) (c : Char) : Int := goIndexAux c s.toList

/-- Go slice expression `s[i:]`: defined for `0 ≤ i ≤ len s`, a runtime panic
(`none`) otherwise — in particular at `i = -1`. -/
def goSlice (s : String) (i : Int) : Option String :=
  if 0 ≤ i ∧ i ≤ (s.toList.length : Int) then some (String.mk (s.toList.drop i.toNat))
  else none

/-- Annotation key `provisionerIDAnn`. -/
def provisionerIDAnn : String := "cephFSProvisionerIdentity"

/-- Annotation key `cephShareAnn`. -/
def cephShareAnn : String := "cephShare"

/-- Storage-class annotation key used by `getClassForVolume`. -/
def classAnnKey : String := "volume.beta.kubernetes.io/storage-class"

/-- Go map read `m[k]` on an association-list model of a string map. -/
def lookupAnn : List (String × String) → String → Option String
  | [], _ => none
  | (k2, v) :: rest, k => if k2 = k then some v else lookupAnn rest k

/-- A storage class: only its parameter map matters to this core. -/
structure StorageClass where
  parameters : List (String × String)
deriving DecidableEq

/-- The Kubernetes client, reduced to the three calls this file makes:
secret Get, storage-class Get, and whether secret Create succeeds.
Secret data is an association list (Go map iteration order is modelled
by list order). -/
structure Client where
  secretGet : String → String → Option (List (String × String))
  classGet : String → Option StorageClass
  secretCreateOk : String → String → Bool

/-- `provisionOutput`: the parsed agent stdout record.  `json.Unmarshal`
errors are ignored by the source, so a missing field is simply `""`. -/
structure ProvisionOutput where
  path : String
  user : String
  secret : String
deriving DecidableEq

/-- Result of running the agent subprocess in create mode: non-zero exit
(with captured output), or the parsed stdout record. -/
inductive AgentCreateResult where
  | exitErr : String → AgentCreateResult
  | ok : ProvisionOutput → AgentCreateResult
deriving DecidableEq

/-- `parsePVSecret`: nil client fails; secret Get failure fails; otherwise the
first entry of the data map wins, and an empty map fails. -/
def parsePVSecret (client : Option Client) (ns secretName : String) : Except String String :=
  match client with
  | none => .error "Cannot get kube client"
  | some c =>
    match c.secretGet ns secretName with
    | none => .error "secret get failed"
    | some data =>
      match data with
      | [] => .error "no secret found"
      | (_, v) :: _ => .ok v

/-- Accumulator of `parseParameters`' loop: the five local variables, with
their declared defaults. -/
structure ParseAcc where
  cluster : String
  adminID : String
  adminSecretName : String
  adminSecretNamespace : String
  mon : List String
deriving DecidableEq

/-- Initial values: `adminSecretNamespace = "default"`, `adminID = "admin"`,
`cluster = "ceph"`, `mon = nil`, `adminSecretName = ""`. -/
def initAcc : ParseAcc := ⟨"ceph", "admin", "", "default", []⟩

/-- The `for k, v := range parameters` loop of `parseParameters` (the Go map
is modelled as an association list; the loop is order-independent for the
properties proved here).  The `monitors` case appends every segment of the
comma-split, empty segments included; an unrecognized key aborts with
`invalid option`. -/
def parseLoop : List (String × String) → ParseAcc → Except String ParseAcc
  | [], acc => .ok acc
  | (k, v) :: rest, acc =>
    match goToLower k with
    | "cluster" => parseLoop rest { acc with cluster := v }
    | "monitors" => parseLoop rest { acc with mon := acc.mon ++ goSplit v ',' }
    | "adminid" => parseLoop rest { acc with adminID := v }
    | "adminsecretname" => parseLoop rest { acc with adminSecretName := v }
    | "adminsecretnamespace" => parseLoop rest { acc with adminSecretNamespace := v }
    | _ => .error ("invalid option " ++ k)

/-- `parseParameters`: run the loop, then the sanity checks in source order:
missing `adminSecretName`, admin-secret resolution, `len(mon) < 1`.
Returns `(cluster, adminID, adminSecret, mon)`. -/
def parseParameters (client : Option Client) (parameters : List (String × String)) :
    Except String (String × String × String × List String) :=
  match parseLoop parameters initAcc with
  | .error e => .error e
  | .ok acc =>
    if acc.adminSecretName = "" then .error "missing Ceph admin secret name"
    else
      match parsePVSecret client acc.adminSecretNamespace acc.adminSecretName with
      | .error e => .error ("failed to get admin secret: " ++ e)
      | .ok adminSecret =>
        if acc.mon.length < 1 then .error "missing Ceph monitors"
        else .ok (acc.cluster, acc.adminID, adminSecret, acc.mon)

/-- Is an `Except` an error? -/
def isFail {α : Type} : Except String α → Bool
  | .error _ => true
  | .ok _ => false

/-- Outcome of a Go computation that may also panic at runtime
(`crash` models a Go panic such as a slice bound violation or a nil
pointer dereference). -/
inductive GoResult (α : Type) where
  | crash : String → GoResult α
  | err : String → GoResult α
  | ok : α → GoResult α
deriving DecidableEq

/-- Is a `GoResult` the `err` outcome (an ordinary returned error)? -/
def isErrG {α : Type} : GoResult α → Bool
  | .err _ => true
  | _ => false

/-- Is a `GoResult` a runtime panic? -/
def isCrashG {α : Type} : GoResult α → Bool
  | .crash _ => true
  | _ => false

/-- `v1.CephFSVolumeSource`, restricted to the fields this file writes/reads. -/
structure CephFSVolumeSource where
  monitors : List String
  path : String
  secretRefName : String
  user : String
deriving DecidableEq

/-- `v1.PersistentVolume`, restricted to the fields this file writes/reads.
`annots` are the object-metadata annotations; `cephfs` is the
`PersistentVolumeSource.CephFS` pointer (`none` = nil). -/
structure PersistentVolume where
  name : String
  annots : List (String × String)
  reclaimPolicy : String
  accessModes : List String
  capacity : Nat
  cephfs : Option CephFSVolumeSource
deriving DecidableEq

/-- A spawned agent subprocess invocation: argument vector and environment. -/
structure Cmd where
  args : List String
  env : List String
deriving DecidableEq

/-- `controller.VolumeOptions`, restricted to the fields Provision reads:
PV name, the PVC's namespace and selector presence, the class parameters,
the requested capacity (opaque) and the reclaim policy. -/
structure VolumeOptions where
  pvName : String
  pvcNamespace : String
  hasSelector : Bool
  parameters : List (String × String)
  capacity : Nat
  reclaimPolicy : String
deriving DecidableEq

/-- Observable effects of a Provision call: the returned value (or error or
panic), the secrets actually created in the store (namespace, name, key
value), and the agent subprocess spawned, if any. -/
structure ProvisionEffects where
  res : GoResult PersistentVolume
  createdSecrets : List (String × String × String)
  spawned : Option Cmd
deriving DecidableEq

/-- `Provision`: selector check, `parseParameters`, random share/user names
from two fresh identifiers, agent invocation in create mode, output
validation, secret creation in the PVC's namespace, and PV construction with
the ownership annotations and the export path sliced from the first `/`.
The agent subprocess outcome is the `agent` argument; `uuid1`, `uuid2` are
the two successive draws from the UUID generator. -/
def Provision (identity : String) (client : Option Client)
    (agent : AgentCreateResult) (uuid1 uuid2 : String)
    (options : VolumeOptions) : ProvisionEffects :=
  if options.hasSelector then
    ⟨.err "claim Selector is not supported", [], none⟩
  else
    match parseParameters client options.parameters with
    | .error e => ⟨.err e, [], none⟩
    | .ok (cluster, adminID, adminSecret, mon) =>
      let share := "kubernetes-dynamic-pvc-" ++ uuid1
      let user := "kubernetes-dynamic-user-" ++ uuid2
      let cmd : Cmd :=
        ⟨["-n", share, "-u", user],
         ["CEPH_CLUSTER_NAME=" ++ cluster,
          "CEPH_MON=" ++ goJoin mon ",",
          "CEPH_AUTH_ID=" ++ adminID,
          "CEPH_AUTH_KEY=" ++ adminSecret]⟩
      match agent with
      | .exitErr msg => ⟨.err msg, [], some cmd⟩
      | .ok res =>
        if res.user = "" ∨ res.secret = "" ∨ res.path = "" then
          ⟨.err "invalid provisioner output", [], some cmd⟩
        else
          let nameSpace := options.pvcNamespace
          let secretName := "ceph-" ++ user ++ "-secret"
          match client with
          | none => ⟨.crash "nil client", [], some cmd⟩
          | some c =>
            if c.secretCreateOk nameSpace secretName then
              match goSlice res.path (goIndex res.path '/') with
              | none =>
                ⟨.crash "slice bounds out of range",
                 [(nameSpace, secretName, res.secret)], some cmd⟩
              | some exportPath =>
                ⟨.ok
                  { name := options.pvName,
                    annots := [(provisionerIDAnn, identity), (cephShareAnn, share)],
                    reclaimPolicy := options.reclaimPolicy,
                    accessModes := ["ReadWriteOnce", "ReadOnlyMany", "ReadWriteMany"],
                    capacity := options.capacity,
                    cephfs := some
                      { monitors := mon,
                        path := exportPath,
                        secretRefName := secretName,
                        user := user } },
                 [(nameSpace, secretName, res.secret)], some cmd⟩
            else ⟨.err "failed to create secret", [], some cmd⟩

/-- Tri-state outcome of the ownership verification at the head of `Delete`
(lines 170-180 of the source: identity annotation first, then the share
annotation). -/
inductive VerifyOutcome where
  | owned : String → VerifyOutcome
  | notFound : String → VerifyOutcome
  | notMine : VerifyOutcome
deriving DecidableEq

/-- The ownership check of `Delete`, in source order: missing identity
annotation is a hard `notFound`; a present identity annotation different
from ours is `notMine` (checked before the share annotation); a missing
share annotation is a hard `notFound`; otherwise `owned` with the recorded
share name. -/
def verifyOwnership (identity : String) (volume : PersistentVolume) : VerifyOutcome :=
  match lookupAnn volume.annots provisionerIDAnn with
  | none => .notFound "identity annotation not found on PV"
  | some ann =>
    if ann ≠ identity then .notMine
    else
      match lookupAnn volume.annots cephShareAnn with
      | none => .notFound "ceph share annotation not found on PV"
      | some share => .owned share

/-- `getClassForVolume`: class annotation lookup, then a class Get through
the client (a nil client panics here, as the source would). -/
def getClassForVolume (client : Option Client) (pv : PersistentVolume) :
    GoResult StorageClass :=
  match lookupAnn pv.annots classAnnKey with
  | none => .err "Volume has no class annotation"
  | some className =>
    match client with
    | none => .crash "nil client"
    | some c =>
      match c.classGet className with
      | none => .err "storageclass get failed"
      | some cls => .ok cls

/-- Result of a Delete call: success, returned error, the distinguished
`controller.IgnoredError`, or a runtime panic. -/
inductive DeleteResult where
  | ok : DeleteResult
  | err : String → DeleteResult
  | ignored : String → DeleteResult
  | crash : String → DeleteResult
deriving DecidableEq

/-- Is a `DeleteResult` a runtime panic? -/
def isCrashD : DeleteResult → Bool
  | .crash _ => true
  | _ => false

/-- Observable effects of a Delete call: outcome plus the destroy subprocess
spawned, if any. -/
structure DeleteEffects where
  res : DeleteResult
  spawned : Option Cmd
deriving DecidableEq

/-- `Delete`: ownership verification, class lookup, `parseParameters` on the
class's parameters, read of the granted user from the PV's CephFS source
(nil source panics, as the source code would), then the destroy subprocess.
`destroyExitOk` is the agent's exit status in destroy mode. -/
def Delete (identity : String) (client : Option Client) (destroyExitOk : Bool)
    (volume : PersistentVolume) : DeleteEffects :=
  match verifyOwnership identity volume with
  | .notFound msg => ⟨.err msg, none⟩
  | .notMine => ⟨.ignored "identity annotation on PV does not match ours", none⟩
  | .owned share =>
    match getClassForVolume client volume with
    | .crash msg => ⟨.crash msg, none⟩
    | .err msg => ⟨.err msg, none⟩
    | .ok cls =>
      match parseParameters client cls.parameters with
      | .error e => ⟨.err e, none⟩
      | .ok (cluster, adminID, adminSecret, mon) =>
        match volume.cephfs with
        | none => ⟨.crash "nil CephFS volume source", none⟩
        | some cephfs =>
          let user := cephfs.user
          let cmd : Cmd :=
            ⟨["-r", "-n", share, "-u", user],
             ["CEPH_CLUSTER_NAME=" ++ cluster,
              "CEPH_MON=" ++ goJoin mon ",",
              "CEPH_AUTH_ID=" ++ adminID,
              "CEPH_AUTH_KEY=" ++ adminSecret]⟩
          if destroyExitOk then ⟨.ok, some cmd⟩
          else ⟨.err "destroy command failed", some cmd⟩

/-! Concrete fixtures used by witnesses and counterexamples. -/

/-- A store holding one admin secret `default/ceph-admin` with a single
entry, one storage class `cls0`, and always-succeeding secret creation. -/
def client0 : Client :=
  { secretGet := fun ns name =>
      if ns = "default" ∧ name = "ceph-admin" then some [("key", "AQA==")] else none,
    classGet := fun n =>
      if n = "cls0" then
        some ⟨[("monitors", "10.0.0.1:6789,10.0.0.2:6789"), ("adminsecretname", "ceph-admin")]⟩
      else none,
    secretCreateOk := fun _ _ => true }

/-- A reachable store that holds no secrets and no classes. -/
def clientEmpty : Client :=
  { secretGet := fun _ _ => none,
    classGet := fun _ => none,
    secretCreateOk := fun _ _ => true }

/-- A well-formed provisioning request against `client0`'s class parameters. -/
def opts0 : VolumeOptions :=
  { pvName := "pv0",
    pvcNamespace := "ns0",
    hasSelector := false,
    parameters := [("monitors", "10.0.0.1:6789,10.0.0.2:6789"), ("adminsecretname", "ceph-admin")],
    capacity := 1,
    reclaimPolicy := "Delete" }

/-- Agent create output of end-to-end scenario 1. -/
def out0 : ProvisionOutput := ⟨"/volumes/vol1", "u1", "AQA=="⟩

/-- The volume that `Provision "id0" (some client0) (.ok out0) "uA" "uB" opts0`
publishes. -/
def pv0 : PersistentVolume :=
  { name := "pv0",
    annots := [(provisionerIDAnn, "id0"), (cephShareAnn, "kubernetes-dynamic-pvc-uA")],
    reclaimPolicy := "Delete",
    accessModes := ["ReadWriteOnce", "ReadOnlyMany", "ReadWriteMany"],
    capacity := 1,
    cephfs := some
      { monitors := ["10.0.0.1:6789", "10.0.0.2:6789"],
        path := "/volumes/vol1",
        secretRefName := "ceph-kubernetes-dynamic-user-uB-secret",
        user := "kubernetes-dynamic-user-uB" } }

/-- A volume stamped with identity `idA` and share `sh1`, no class annotation,
no CephFS source. -/
def pvStamped : PersistentVolume :=
  { name := "pv1",
    annots := [(provisionerIDAnn, "idA"), (cephShareAnn, "sh1")],
    reclaimPolicy := "Delete",
    accessModes := [],
    capacity := 1,
    cephfs := none }

/-- A volume with no annotations at all. -/
def pvBare : PersistentVolume :=
  { name := "pv2",
    annots := [],
    reclaimPolicy := "Delete",
    accessModes := [],
    capacity := 1,
    cephfs := none }

/-- A deletable volume: stamped with `idA`/`sh1`, class `cls0`, but no CephFS
volume source. -/
def pvNoSource : PersistentVolume :=
  { name := "pv3",
    annots := [(provisionerIDAnn, "idA"), (cephShareAnn, "sh1"), (classAnnKey, "cls0")],
    reclaimPolicy := "Delete",
    accessModes := [],
    capacity := 1,
    cephfs := none }

/-- A deletable volume with a CephFS volume source recording user `userX`. -/
def pvFull : PersistentVolume :=
  { name := "pv4",
    annots := [(provisionerIDAnn, "idA"), (cephShareAnn, "sh1"), (classAnnKey, "cls0")],
    reclaimPolicy := "Delete",
    accessModes := [],
    capacity := 1,
    cephfs := some
      { monitors := ["10.0.0.1:6789", "10.0.0.2:6789"],
        path := "/volumes/vol1",
        secretRefName := "sec1",
        user := "userX" } }

/-- The five key names accepted by `parseParameters`' switch (already
lowercased). -/
def recognizedKey (s : String) : Bool :=
  s == "cluster" || s == "monitors" || s == "adminid" ||
  s == "adminsecretname" || s == "adminsecretnamespace"

/-- If no bundle entry lowercases to `monitors`, the loop leaves the monitor
accumulator untouched. -/
theorem parseLoop_mon_eq (params : List (String × String)) :
    ∀ acc acc', (∀ kv ∈ params, goToLower kv.1 ≠ "monitors") →
      parseLoop params acc = .ok acc' → acc'.mon = acc.mon := by
  induction params with
  | nil =>
    intro acc acc' _ h
    simp only [parseLoop] at h
    cases h
    rfl
  | cons kv rest ih =>
    intro acc acc' hall h
    obtain ⟨k, v⟩ := kv
    have hk : goToLower k ≠ "monitors" := hall (k, v) (List.mem_cons_self _ _)
    have htail : ∀ kv2 ∈ rest, goToLower kv2.1 ≠ "monitors" :=
      fun kv2 hm => hall kv2 (List.mem_cons_of_mem _ hm)
    simp only [parseLoop] at h
    split at h
    · exact ih { acc with cluster := v } acc' htail h
    · next heq => exact absurd heq hk
    · exact ih { acc with adminID := v } acc' htail h
    · exact ih { acc with adminSecretName := v } acc' htail h
    · exact ih { acc with adminSecretNamespace := v } acc' htail h
    · cases h

/-- If a bundle entry lowercases to an unrecognized key, the loop fails. -/
theorem parseLoop_unrecognized (params : List (String × String)) :
    ∀ acc k v, (k, v) ∈ params → recognizedKey (goToLower k) = false →
      isFail (parseLoop params acc) = true := by
  induction params with
  | nil => intro acc k v hm _; cases hm
  | cons kv rest ih =>
    intro acc k v hm hk
    rcases List.mem_cons.mp hm with heq | hm2
    · rw [← heq]
      simp only [parseLoop]
      split
      · next h1 => rw [h1] at hk; exact absurd hk (by decide)
      · next h1 => rw [h1] at hk; exact absurd hk (by decide)
      · next h1 => rw [h1] at hk; exact absurd hk (by decide)
      · next h1 => rw [h1] at hk; exact absurd hk (by decide)
      · next h1 => rw [h1] at hk; exact absurd hk (by decide)
      · rfl
    · obtain ⟨k0, v0⟩ := kv
      simp only [parseLoop]
      split
      · exact ih _ k v hm2 hk
      · exact ih _ k v hm2 hk
      · exact ih _ k v hm2 hk
      · exact ih _ k v hm2 hk
      · exact ih _ k v hm2 hk
      · rfl

/-- C1 (counterexample): the bundle `monitors ↦ ","` splits into segments that
are all empty, yet `parseParameters` succeeds and returns a connection whose
monitor list is two empty strings — empty segments are not filtered, so a
`monitors` value yielding zero non-empty entries does not make resolution
fail. -/
theorem monitors_comma_accepted :
    (goSplit "," ',').all (fun s => s == "") = true
    ∧ parseParameters (some client0) [("monitors", ","), ("adminsecretname", "ceph-admin")]
        = .ok ("ceph", "admin", "AQA==", ["", ""]) := by
  constructor
  · decide
  · decide

/-- C1 (amended): if no entry of the bundle has a key lowercasing to
`monitors`, the monitor list stays empty and `parseParameters` fails, so no
ClusterConnection is returned.  (The claim's other half — failure when the
`monitors` value splits into zero non-empty entries — is false; see
`monitors_comma_accepted`.) -/
theorem parseParameters_requires_monitors_key (client : Option Client)
    (params : List (String × String))
    (h : ∀ kv ∈ params, goToLower kv.1 ≠ "monitors") :
    isFail (parseParameters client params) = true := by
  unfold parseParameters
  cases hpl : parseLoop params initAcc with
  | error e => rfl
  | ok acc =>
    have hmon : acc.mon = initAcc.mon := parseLoop_mon_eq params initAcc acc h hpl
    by_cases hs : acc.adminSecretName = ""
    · simp [hs, isFail]
    · simp only [if_neg hs]
      cases hps : parsePVSecret client acc.adminSecretNamespace acc.adminSecretName with
      | error e => rfl
      | ok s =>
        have : acc.mon.length < 1 := by rw [hmon]; decide
        simp [this, isFail]

/-- Witness for C1: a concrete bundle without a `monitors` key is rejected. -/
theorem parseParameters_requires_monitors_key_witness :
    isFail (parseParameters (some client0) [("adminsecretname", "ceph-admin")]) = true :=
  parseParameters_requires_monitors_key (some client0) [("adminsecretname", "ceph-admin")]
    (by decide)

/-- C4: a configuration bundle containing any entry whose lowercased key is
outside the recognized set makes `parseParameters` fail; the failure value
carries no resolved fields, so no recognized key of the bundle is partially
applied in the result. -/
theorem parseParameters_rejects_unrecognized (client : Option Client)
    (params : List (String × String)) (k v : String)
    (hmem : (k, v) ∈ params) (hk : recognizedKey (goToLower k) = false) :
    isFail (parseParameters client params) = true := by
  unfold parseParameters
  have hloop := parseLoop_unrecognized params initAcc k v hmem hk
  cases hpl : parseLoop params initAcc with
  | error e => rfl
  | ok acc => rw [hpl] at hloop; exact absurd hloop (by simp [isFail])

/-- Witness for C4: the bundle with the single misspelled key `monitor` is
rejected even though a `monitors`-ish value and a valid secret name are
present. -/
theorem parseParameters_rejects_unrecognized_witness :
    isFail (parseParameters (some client0)
      [("monitor", "10.0.0.1:6789"), ("adminsecretname", "ceph-admin")]) = true :=
  parseParameters_rejects_unrecognized (some client0)
    [("monitor", "10.0.0.1:6789"), ("adminsecretname", "ceph-admin")]
    "monitor" "10.0.0.1:6789" (by decide) (by decide)

/-- C7: credential resolution is permissive on key names and fails exactly on
the three stated conditions.  For every namespace/name pair: a nil client
(store unreachable) fails; a failing secret Get (store unreachable or secret
absent) fails; when the secret exists, resolution fails iff its data mapping
is empty, and any value it returns is the value of some entry of the mapping
— no particular key name is required. -/
theorem parsePVSecret_spec (ns name : String) :
    isFail (parsePVSecret none ns name) = true
    ∧ (∀ c : Client, c.secretGet ns name = none →
        isFail (parsePVSecret (some c) ns name) = true)
    ∧ (∀ (c : Client) (data : List (String × String)), c.secretGet ns name = some data →
        ((isFail (parsePVSecret (some c) ns name) = true ↔ data = [])
          ∧ ∀ v, parsePVSecret (some c) ns name = .ok v → ∃ k, (k, v) ∈ data)) := by
  refine ⟨rfl, fun c hg => ?_, fun c data hg => ?_⟩
  · simp only [parsePVSecret, hg]; rfl
  · simp only [parsePVSecret, hg]
    cases data with
    | nil => exact ⟨by simp [isFail], fun v h => by cases h⟩
    | cons kv rest =>
      obtain ⟨k0, v0⟩ := kv
      refine ⟨by simp [isFail], fun v h => ?_⟩
      cases h
      exact ⟨k0, List.mem_cons_self _ _⟩

/-- Witness for C7, at concrete stores: the nil client fails, a store without
the secret fails, `client0`'s one-entry secret resolves, and the resolved
value is an entry of the mapping. -/
theorem parsePVSecret_spec_witness :
    isFail (parsePVSecret none "default" "ceph-admin") = true
    ∧ isFail (parsePVSecret (some clientEmpty) "default" "ceph-admin") = true
    ∧ (isFail (parsePVSecret (some client0) "default" "ceph-admin") = true
        ↔ ([("key", "AQA==")] : List (String × String)) = [])
    ∧ ∃ k, (k, "AQA==") ∈ ([("key", "AQA==")] : List (String × String)) :=
  ⟨(parsePVSecret_spec "default" "ceph-admin").1,
   (parsePVSecret_spec "default" "ceph-admin").2.1 clientEmpty rfl,
   ((parsePVSecret_spec "default" "ceph-admin").2.2 client0 [("key", "AQA==")] rfl).1,
   ((parsePVSecret_spec "default" "ceph-admin").2.2 client0 [("key", "AQA==")] rfl).2
     "AQA==" rfl⟩

/-- The claim's failure hypothesis for C2: the agent create invocation exits
non-zero, or its stdout record has an empty `path`, `user` or `auth` field. -/
def createFailed : AgentCreateResult → Bool
  | .exitErr _ => true
  | .ok res => res.user == "" || res.secret == "" || res.path == ""

/-- C2: whenever the agent exits non-zero on create, or its output has an
empty `path`, `user` or `auth` field, Provision returns an ordinary error,
creates no secret in the store, and publishes no volume descriptor. -/
theorem provision_agent_failure_no_partial_state (identity : String)
    (client : Option Client) (agent : AgentCreateResult) (uuid1 uuid2 : String)
    (options : VolumeOptions) (hfail : createFailed agent = true) :
    isErrG (Provision identity client agent uuid1 uuid2 options).res = true
    ∧ (Provision identity client agent uuid1 uuid2 options).createdSecrets = [] := by
  unfold Provision
  by_cases hs : options.hasSelector
  · simp [hs, isErrG]
  · simp only [if_neg hs]
    cases hp : parseParameters client options.parameters with
    | error e => exact ⟨rfl, rfl⟩
    | ok r =>
      obtain ⟨cluster, adminID, adminSecret, mon⟩ := r
      cases agent with
      | exitErr msg => exact ⟨rfl, rfl⟩
      | ok res =>
        have hempty : res.user = "" ∨ res.secret = "" ∨ res.path = "" := by
          have := hfail
          simp only [createFailed, Bool.or_eq_true, beq_iff_eq] at this
          tauto
        simp [hempty, isErrG]

/-- Witness for C2: a concrete create invocation whose stdout lacks `auth`
yields an error and an empty created-secret list. -/
theorem provision_agent_failure_no_partial_state_witness :
    isErrG (Provision "id0" (some client0)
        (.ok ⟨"/volumes/vol1", "u1", ""⟩) "uA" "uB" opts0).res = true
    ∧ (Provision "id0" (some client0)
        (.ok ⟨"/volumes/vol1", "u1", ""⟩) "uA" "uB" opts0).createdSecrets = [] :=
  provision_agent_failure_no_partial_state "id0" (some client0)
    (.ok ⟨"/volumes/vol1", "u1", ""⟩) "uA" "uB" opts0 (by decide)

/-- C3: ownership verification is tri-state.  For a volume whose identity
annotation is `idA` and whose share annotation is present, verification by
the instance holding `idA` yields `owned` (Delete proceeds past
verification); Delete by an instance holding `idB ≠ idA` returns the
distinguished ignorable outcome and spawns no subprocess; and Delete on a
volume with no ownership annotations returns a hard, non-ignorable error and
spawns no subprocess. -/
theorem delete_ownership_tristate (v : PersistentVolume) (idA idB share : String)
    (client : Option Client) (destroyExitOk : Bool) :
    (lookupAnn v.annots provisionerIDAnn = some idA →
      lookupAnn v.annots cephShareAnn = some share →
      verifyOwnership idA v = .owned share)
    ∧ (lookupAnn v.annots provisionerIDAnn = some idA → idB ≠ idA →
      Delete idB client destroyExitOk v
        = ⟨.ignored "identity annotation on PV does not match ours", none⟩)
    ∧ (lookupAnn v.annots provisionerIDAnn = none →
      Delete idB client destroyExitOk v
        = ⟨.err "identity annotation not found on PV", none⟩) := by
  refine ⟨fun h1 h2 => ?_, fun h1 hne => ?_, fun h1 => ?_⟩
  · simp [verifyOwnership, h1, h2]
  · have hne2 : idA ≠ idB := Ne.symm hne
    simp [Delete, verifyOwnership, h1, hne2]
  · simp [Delete, verifyOwnership, h1]

/-- Witness for C3: the three verification outcomes at concrete volumes:
`pvStamped` carries identity `idA` and share `sh1`; `pvBare` carries no
annotations. -/
theorem delete_ownership_tristate_witness :
    verifyOwnership "idA" pvStamped = .owned "sh1"
    ∧ Delete "idB" (some client0) true pvStamped
        = ⟨.ignored "identity annotation on PV does not match ours", none⟩
    ∧ Delete "idB" (some client0) true pvBare
        = ⟨.err "identity annotation not found on PV", none⟩ :=
  ⟨(delete_ownership_tristate pvStamped "idA" "idB" "sh1" (some client0) true).1 (by decide)
      (by decide),
   (delete_ownership_tristate pvStamped "idA" "idB" "sh1" (some client0) true).2.1 (by decide)
      (by decide),
   (delete_ownership_tristate pvBare "idA" "idB" "sh1" (some client0) true).2.2 (by decide)⟩

/-- C9: the destroy subprocess is never spawned unless the volume carries the
identity annotation equal to this instance's identity and the share
annotation; and the identity annotation is checked first, so a volume whose
identity annotation is present but different receives the ignorable outcome
(and no subprocess) regardless of its share annotation. -/
theorem delete_spawn_requires_ownership (identity : String) (client : Option Client)
    (destroyExitOk : Bool) (v : PersistentVolume) :
    (lookupAnn v.annots provisionerIDAnn ≠ some identity →
      (Delete identity client destroyExitOk v).spawned = none)
    ∧ (lookupAnn v.annots cephShareAnn = none →
      (Delete identity client destroyExitOk v).spawned = none)
    ∧ (∀ ann, lookupAnn v.annots provisionerIDAnn = some ann → ann ≠ identity →
      Delete identity client destroyExitOk v
        = ⟨.ignored "identity annotation on PV does not match ours", none⟩) := by
  cases hid : lookupAnn v.annots provisionerIDAnn with
  | none =>
    refine ⟨fun _ => ?_, fun _ => ?_, fun ann h1 _ => Option.noConfusion h1⟩
    · simp [Delete, verifyOwnership, hid]
    · simp [Delete, verifyOwnership, hid]
  | some ann =>
    by_cases he : ann = identity
    · subst he
      refine ⟨fun hne => absurd rfl hne, fun hsh => ?_, fun a h1 hne => ?_⟩
      · simp [Delete, verifyOwnership, hid, hsh]
      · injection h1 with h2
        exact absurd h2.symm hne
    · refine ⟨fun _ => ?_, fun _ => ?_, fun a h1 _ => ?_⟩
      · simp [Delete, verifyOwnership, hid, he]
      · simp [Delete, verifyOwnership, hid, he]
      · simp [Delete, verifyOwnership, hid, he]

/-- Witness for C9: a foreign volume (identity annotation `idA`, running
instance `idB`) gets the ignorable outcome with no subprocess even though it
also lacks nothing else; and a bare volume spawns nothing. -/
theorem delete_spawn_requires_ownership_witness :
    (Delete "idB" (some client0) true pvBare).spawned = none
    ∧ Delete "idB" (some client0) true pvStamped
        = ⟨.ignored "identity annotation on PV does not match ours", none⟩ :=
  ⟨(delete_spawn_requires_ownership "idB" (some client0) true pvBare).1 (by decide),
   (delete_spawn_requires_ownership "idB" (some client0) true pvStamped).2.2 "idA" (by decide)
     (by decide)⟩

/-- Spec-side description of export-path normalization: the suffix of the
path starting at its first `/` character. -/
def suffixFromFirstSlash (s : String) : String :=
  String.mk (s.toList.dropWhile (fun a => a ≠ '/'))

/-- `strings.Index` returns `-1` when the character is absent. -/
theorem goIndexAux_of_not_mem (c : Char) (l : List Char) (h : c ∉ l) :
    goIndexAux c l = -1 := by
  induction l with
  | nil => rfl
  | cons a rest ih =>
    have hne : a ≠ c := fun he => h (he ▸ List.mem_cons_self a rest)
    have hrest : c ∉ rest := fun hm => h (List.mem_cons_of_mem _ hm)
    simp only [goIndexAux, if_neg hne, ih hrest]
    rfl

/-- `strings.Index` on a present character: nonnegative, within bounds, and
dropping that many characters is dropping the prefix before the first
occurrence. -/
theorem goIndexAux_of_mem (c : Char) (l : List Char) (h : c ∈ l) :
    0 ≤ goIndexAux c l ∧ goIndexAux c l ≤ (l.length : Int)
    ∧ l.drop (goIndexAux c l).toNat = l.dropWhile (fun a => a ≠ c) := by
  induction l with
  | nil => cases h
  | cons a rest ih =>
    by_cases ha : a = c
    · refine ⟨?_, ?_, ?_⟩
      · simp [goIndexAux, ha]
      · simp only [goIndexAux, ha, if_pos]
        simp only [List.length_cons]
        omega
      · simp [goIndexAux, ha, List.dropWhile]
    · have hrest : c ∈ rest := by
        rcases List.mem_cons.mp h with he | hm
        · exact absurd he.symm ha
        · exact hm
      obtain ⟨h0, hlen, hdrop⟩ := ih hrest
      have hnotlt : ¬ goIndexAux c rest < 0 := not_lt.mpr h0
      have hval : goIndexAux c (a :: rest) = goIndexAux c rest + 1 := by
        simp only [goIndexAux, if_neg ha, if_neg hnotlt]
      refine ⟨?_, ?_, ?_⟩
      · rw [hval]; omega
      · rw [hval]; simp only [List.length_cons]; push_cast; omega
      · rw [hval]
        have htn : (goIndexAux c rest + 1).toNat = (goIndexAux c rest).toNat + 1 := by omega
        rw [htn, List.drop_succ_cons, hdrop, List.dropWhile]
        simp [ha]

/-- When the agent path contains a `/`, the source's slice expression is
defined and equals the suffix from the first `/`. -/
theorem goSlice_goIndex_of_mem (s : String) (h : '/' ∈ s.toList) :
    goSlice s (goIndex s '/') = some (suffixFromFirstSlash s) := by
  obtain ⟨h0, hlen, hdrop⟩ := goIndexAux_of_mem '/' s.toList h
  unfold goSlice goIndex suffixFromFirstSlash
  rw [if_pos ⟨h0, hlen⟩, hdrop]

/-- When the agent path contains no `/`, the source's slice expression is the
out-of-bounds slice `s[-1:]` — a runtime panic. -/
theorem goSlice_goIndex_of_not_mem (s : String) (h : '/' ∉ s.toList) :
    goSlice s (goIndex s '/') = none := by
  unfold goSlice goIndex
  rw [goIndexAux_of_not_mem '/' s.toList h]
  have hcon : ¬ ((0 : Int) ≤ -1 ∧ (-1 : Int) ≤ (s.toList.length : Int)) :=
    fun hc => absurd hc.1 (by decide)
  rw [if_neg hcon]

/-- A nil client always makes `parseParameters` fail (the secret fetch is
checked before the monitor count, and `parsePVSecret` rejects a nil client). -/
theorem parseParameters_none_fails (params : List (String × String)) :
    isFail (parseParameters none params) = true := by
  unfold parseParameters
  cases hpl : parseLoop params initAcc with
  | error e => rfl
  | ok acc =>
    by_cases hs : acc.adminSecretName = ""
    · simp [hs, isFail]
    · simp only [if_neg hs, parsePVSecret]
      rfl

/-- C5: every volume descriptor returned by a successful Provision records as
its export path exactly the suffix of the agent-reported path starting at
the first `/` character. -/
theorem provision_export_path_suffix (identity : String) (client : Option Client)
    (out : ProvisionOutput) (uuid1 uuid2 : String) (options : VolumeOptions)
    (pv : PersistentVolume)
    (h : (Provision identity client (.ok out) uuid1 uuid2 options).res = .ok pv) :
    pv.cephfs.map (fun src => src.path) = some (suffixFromFirstSlash out.path) := by
  unfold Provision at h
  by_cases hs : options.hasSelector
  · rw [if_pos hs] at h; cases h
  · rw [if_neg hs] at h
    cases hp : parseParameters client options.parameters with
    | error e => rw [hp] at h; cases h
    | ok r =>
      rw [hp] at h
      obtain ⟨cluster, adminID, adminSecret, mon⟩ := r
      by_cases hempty : out.user = "" ∨ out.secret = "" ∨ out.path = ""
      · simp only [if_pos hempty] at h; cases h
      · simp only [if_neg hempty] at h
        cases client with
        | none => cases h
        | some c =>
          by_cases hcr : c.secretCreateOk options.pvcNamespace
              ("ceph-" ++ ("kubernetes-dynamic-user-" ++ uuid2) ++ "-secret")
          · simp only [if_pos hcr] at h
            cases hsl : goSlice out.path (goIndex out.path '/') with
            | none => rw [hsl] at h; cases h
            | some p =>
              rw [hsl] at h
              cases h
              have hmem : '/' ∈ out.path.toList := by
                by_contra hnm
                rw [goSlice_goIndex_of_not_mem out.path hnm] at hsl
                cases hsl
              rw [goSlice_goIndex_of_mem out.path hmem] at hsl
              injection hsl with hp2
              simp [hp2]
          · simp only [if_neg hcr] at h; cases h

/-- Witness for C5 (end-to-end scenario 1): the agent reports
`/volumes/vol1` and the published descriptor's export path is exactly
`/volumes/vol1`. -/
theorem provision_export_path_suffix_witness :
    (Provision "id0" (some client0) (.ok out0) "uA" "uB" opts0).res = .ok pv0
    ∧ pv0.cephfs.map (fun src => src.path) = some "/volumes/vol1" :=
  ⟨by decide,
   (provision_export_path_suffix "id0" (some client0) out0 "uA" "uB" opts0 pv0
      (by decide)).trans (by decide)⟩

/-- C6 (counterexample): an agent create-output whose three fields are all
non-empty but whose path contains no `/` drives the export-path
normalization out of bounds: `strings.Index` yields `-1` and the slice
panics.  The panic happens after the secret creation, so a secret has
already been published. -/
theorem provision_path_without_slash_crashes :
    goIndex "volumes-no-slash" '/' = -1
    ∧ (Provision "id0" (some client0) (.ok ⟨"volumes-no-slash", "u1", "AQA=="⟩)
        "uA" "uB" opts0).res = .crash "slice bounds out of range"
    ∧ (Provision "id0" (some client0) (.ok ⟨"volumes-no-slash", "u1", "AQA=="⟩)
        "uA" "uB" opts0).createdSecrets
        = [("ns0", "ceph-kubernetes-dynamic-user-uB-secret", "AQA==")] :=
  ⟨by decide, by decide, by decide⟩

/-- C6 (amended): for every agent create-output whose path contains at least
one `/` character, building the volume descriptor is well-defined —
Provision never panics.  (For paths with no `/` the slice index is `-1` and
the build panics; see `provision_path_without_slash_crashes`.) -/
theorem provision_path_with_slash_no_crash (identity : String) (client : Option Client)
    (out : ProvisionOutput) (uuid1 uuid2 : String) (options : VolumeOptions)
    (h : '/' ∈ out.path.toList) :
    isCrashG (Provision identity client (.ok out) uuid1 uuid2 options).res = false := by
  unfold Provision
  by_cases hs : options.hasSelector
  · simp [hs, isCrashG]
  · rw [if_neg hs]
    cases hcl : client with
    | none =>
      have hfail := parseParameters_none_fails options.parameters
      cases hp : parseParameters none options.parameters with
      | error e => simp [isCrashG]
      | ok r => rw [hp] at hfail; exact absurd hfail (by simp [isFail])
    | some c =>
      cases hp : parseParameters (some c) options.parameters with
      | error e => simp [isCrashG]
      | ok r =>
        obtain ⟨cluster, adminID, adminSecret, mon⟩ := r
        by_cases hempty : out.user = "" ∨ out.secret = "" ∨ out.path = ""
        · simp [hempty, isCrashG]
        · simp only [if_neg hempty]
          by_cases hcr : c.secretCreateOk options.pvcNamespace
              ("ceph-" ++ ("kubernetes-dynamic-user-" ++ uuid2) ++ "-secret")
          · simp only [if_pos hcr]
            rw [goSlice_goIndex_of_mem out.path h]
            rfl
          · simp only [if_neg hcr]
            rfl

/-- Witness for C6: a path with an export-system prefix before the first `/`
is handled without a panic. -/
theorem provision_path_with_slash_no_crash_witness :
    isCrashG (Provision "id0" (some client0) (.ok ⟨"csi:/volumes/vol1", "u1", "AQA=="⟩)
      "uA" "uB" opts0).res = false :=
  provision_path_with_slash_no_crash "id0" (some client0) ⟨"csi:/volumes/vol1", "u1", "AQA=="⟩
    "uA" "uB" opts0 (by decide)

/-- C8 (counterexample): a Provision call that reaches the allocation step
generates the share name `"kubernetes-dynamic-pvc-" ++ uuid` — a string that
cannot be of the form `"dyn-pvc-" ++ r` for any `r`, since its first eight
characters are not `dyn-pvc-` (and likewise `"kubernetes-dynamic-user-"` for
the user). -/
theorem share_name_not_dyn_prefixed :
    ((Provision "id0" (some client0) (.ok out0) "uuidA" "uuidB" opts0).spawned.map Cmd.args)
      = some ["-n", "kubernetes-dynamic-pvc-uuidA", "-u", "kubernetes-dynamic-user-uuidB"]
    ∧ ("kubernetes-dynamic-pvc-uuidA").data.take 8 ≠ ("dyn-pvc-").data
    ∧ ("kubernetes-dynamic-user-uuidB").data.take 9 ≠ ("dyn-user-").data :=
  ⟨by decide, by decide, by decide⟩

/-- C8 (amended): for every Provision call that reaches the allocation step
(selector absent and parameters resolved), the spawned create command names
the share `"kubernetes-dynamic-pvc-" ++ uuid1` and the user
`"kubernetes-dynamic-user-" ++ uuid2`, where `uuid1` and `uuid2` are the two
freshly generated random identifiers, and carries the resolved connection in
its environment. -/
theorem provision_generated_names (identity : String) (client : Option Client)
    (agent : AgentCreateResult) (uuid1 uuid2 : String) (options : VolumeOptions)
    (cluster adminID adminSecret : String) (mon : List String)
    (hsel : options.hasSelector = false)
    (hp : parseParameters client options.parameters = .ok (cluster, adminID, adminSecret, mon)) :
    (Provision identity client agent uuid1 uuid2 options).spawned
      = some ⟨["-n", "kubernetes-dynamic-pvc-" ++ uuid1,
               "-u", "kubernetes-dynamic-user-" ++ uuid2],
              ["CEPH_CLUSTER_NAME=" ++ cluster,
               "CEPH_MON=" ++ goJoin mon ",",
               "CEPH_AUTH_ID=" ++ adminID,
               "CEPH_AUTH_KEY=" ++ adminSecret]⟩ := by
  unfold Provision
  rw [hsel]
  simp only [Bool.false_eq_true, if_false, hp]
  cases agent with
  | exitErr msg => rfl
  | ok res =>
    by_cases hempty : res.user = "" ∨ res.secret = "" ∨ res.path = ""
    · simp only [if_pos hempty]
    · simp only [if_neg hempty]
      cases client with
      | none => rfl
      | some c =>
        by_cases hcr : c.secretCreateOk options.pvcNamespace
            ("ceph-" ++ ("kubernetes-dynamic-user-" ++ uuid2) ++ "-secret")
        · simp only [if_pos hcr]
          cases goSlice res.path (goIndex res.path '/') <;> rfl
        · simp only [if_neg hcr]

/-- Witness for C8: the concrete spawned command of end-to-end scenario 1. -/
theorem provision_generated_names_witness :
    (Provision "id0" (some client0) (.ok out0) "uA" "uB" opts0).spawned
      = some ⟨["-n", "kubernetes-dynamic-pvc-" ++ "uA",
               "-u", "kubernetes-dynamic-user-" ++ "uB"],
              ["CEPH_CLUSTER_NAME=" ++ "ceph",
               "CEPH_MON=" ++ goJoin ["10.0.0.1:6789", "10.0.0.2:6789"] ",",
               "CEPH_AUTH_ID=" ++ "admin",
               "CEPH_AUTH_KEY=" ++ "AQA=="]⟩ :=
  provision_generated_names "id0" (some client0) (.ok out0) "uA" "uB" opts0
    "ceph" "admin" "AQA==" ["10.0.0.1:6789", "10.0.0.2:6789"] rfl (by decide)

/-- C10 (counterexample): a volume that passes ownership verification and
whose class parameters resolve, but carries no CephFS volume source, makes
Delete's read of the granted user a nil pointer dereference. -/
theorem delete_nil_cephfs_crashes :
    verifyOwnership "idA" pvNoSource = .owned "sh1"
    ∧ pvNoSource.cephfs = none
    ∧ (Delete "idA" (some client0) true pvNoSource).res = .crash "nil CephFS volume source" :=
  ⟨by decide, rfl, by decide⟩

/-- C10 (amended): for every volume that passes ownership verification, whose
class parameters resolve, and that carries a CephFS volume source (as every
volume published by Provision does), Delete's read of the recorded granted
user is well-defined and Delete does not panic. -/
theorem delete_with_source_no_crash (identity : String) (client : Option Client)
    (destroyExitOk : Bool) (v : PersistentVolume) (share : String) (cls : StorageClass)
    (conn : String × String × String × List String) (src : CephFSVolumeSource)
    (hv : verifyOwnership identity v = .owned share)
    (hc : getClassForVolume client v = .ok cls)
    (hp : parseParameters client cls.parameters = .ok conn)
    (hsrc : v.cephfs = some src) :
    isCrashD (Delete identity client destroyExitOk v).res = false := by
  obtain ⟨cluster, adminID, adminSecret, mon⟩ := conn
  unfold Delete
  simp only [hv, hc, hp, hsrc]
  cases destroyExitOk <;> rfl

/-- Witness for C10: deleting a fully formed volume does not panic. -/
theorem delete_with_source_no_crash_witness :
    isCrashD (Delete "idA" (some client0) true pvFull).res = false :=
  delete_with_source_no_crash "idA" (some client0) true pvFull "sh1"
    ⟨[("monitors", "10.0.0.1:6789,10.0.0.2:6789"), ("adminsecretname", "ceph-admin")]⟩
    ("ceph", "admin", "AQA==", ["10.0.0.1:6789", "10.0.0.2:6789"])
    { monitors := ["10.0.0.1:6789", "10.0.0.2:6789"],
      path := "/volumes/vol1", secretRefName := "sec1", user := "userX" }
    (by decide) (by decide) (by decide) (by decide)

end CephFS
